import Mathlib

/-
Verification of the secret-fetch script `access.py`.

The script is a linear sequence of effects:
  1. assign two environment variables (IDENTITY_ENDPOINT, IMDS_ENDPOINT);
  2. construct a ManagedIdentityCredential (an external credential acquisition);
  3. construct a SecretClient bound to a fixed vault URL;
  4. call get_secret with a fixed secret name (an external retrieval);
  5. print "KeyVault secret is: " ++ secret.value.

We embed the script as an interpreter `run` parameterised by a `World`
holding the responses of the two external collaborators (the identity
provider and the secret store).  `run` records a trace of the events the
script performs, the lines written to standard output, the resulting
process environment, and the exit status (0 on success, 1 when an
exception escapes; Python terminates with status 1 on an unhandled
exception).  A secret whose value is Python `None` is modelled by
`value = none`; string concatenation with `None` raises `TypeError`.
-/

namespace AzureArcMI

/-- Key of the first environment variable assigned by the script. -/
def identityEndpointKey : String := "IDENTITY_ENDPOINT"

/-- Key of the second environment variable assigned by the script. -/
def imdsEndpointKey : String := "IMDS_ENDPOINT"

/-- Value assigned to IDENTITY_ENDPOINT (line 5 of access.py). -/
def identityEndpointURL : String := "http://localhost:40342/metadata/identity/oauth2/token"

/-- Value assigned to IMDS_ENDPOINT (line 6 of access.py). -/
def imdsEndpointURL : String := "http://localhost:40342"

/-- The hardcoded vault URL (line 11 of access.py). -/
def vaultURL : String := "https://passwordless-arc-mi.vault.azure.net"

/-- The hardcoded secret name (line 13 of access.py). -/
def secretName : String := "my-onprem-secret"

/-- The literal printed before the secret value (line 14 of access.py). -/
def outputLabel : String := "KeyVault secret is: "

/-- A process environment: a partial map from variable names to values. -/
abbrev Env := String → Option String

/-- The effect of one assignment `os.environ[k] = v`. -/
def setEnv (e : Env) (k v : String) : Env :=
  fun k' => if k' = k then some v else e k'

/-- An opaque credential handle returned by the identity provider. -/
structure Credential where
  token : Nat
deriving DecidableEq

/-- A secret returned by the vault: a name and a possibly-null value. -/
structure Secret where
  name : String
  value : Option String
deriving DecidableEq

/-- The exceptions that can escape the script.  The first four come from
the external client libraries; `typeError` is raised locally when the
script concatenates a string with a `None` secret value. -/
inductive PyError
  | authenticationError
  | notFoundError
  | networkError
  | transportError
  | typeError
deriving DecidableEq

/-- The observable events of one run, in program order. -/
inductive Event
  | envAssign (key value : String)
  | credentialRequest
  | clientConstruct (vaultUrl : String)
  | secretRequest (vaultUrl name : String)
  | stdoutWrite (line : String)
deriving DecidableEq

/-- Responses of the two external collaborators: the outcome of
credential acquisition, and the outcome of a secret retrieval given the
vault URL, the secret name and the credential used. -/
structure World where
  acquireCredential : Except PyError Credential
  getSecret : String → String → Credential → Except PyError Secret

/-- The result of one run of the script. -/
structure RunResult where
  trace : List Event
  stdout : List String
  env : Env
  envAtCredential : Env
  exitCode : Nat
  error : Option PyError

/-- Environment after the two assignments on lines 5 and 6. -/
def envAfterSetup (env0 : Env) : Env :=
  setEnv (setEnv env0 identityEndpointKey identityEndpointURL) imdsEndpointKey imdsEndpointURL

/-- Events performed up to and including the credential acquisition. -/
def setupTrace : List Event :=
  [Event.envAssign identityEndpointKey identityEndpointURL,
   Event.envAssign imdsEndpointKey imdsEndpointURL,
   Event.credentialRequest]

/-- Events performed up to and including the secret retrieval. -/
def requestTrace : List Event :=
  setupTrace ++ [Event.clientConstruct vaultURL, Event.secretRequest vaultURL secretName]

/-- The interpreter for access.py: set the two environment variables,
acquire a credential, construct the client, retrieve the secret, print.
Any exception ends the run at that point with exit status 1. -/
def run (w : World) (env0 : Env) : RunResult :=
  match w.acquireCredential with
  | Except.error e =>
      { trace := setupTrace, stdout := [], env := envAfterSetup env0,
        envAtCredential := envAfterSetup env0, exitCode := 1, error := some e }
  | Except.ok cred =>
      match w.getSecret vaultURL secretName cred with
      | Except.error e =>
          { trace := requestTrace, stdout := [], env := envAfterSetup env0,
            envAtCredential := envAfterSetup env0, exitCode := 1, error := some e }
      | Except.ok s =>
          match s.value with
          | none =>
              { trace := requestTrace, stdout := [], env := envAfterSetup env0,
                envAtCredential := envAfterSetup env0, exitCode := 1,
                error := some PyError.typeError }
          | some v =>
              { trace := requestTrace ++ [Event.stdoutWrite (outputLabel ++ v)],
                stdout := [outputLabel ++ v], env := envAfterSetup env0,
                envAtCredential := envAfterSetup env0, exitCode := 0, error := none }

/-- The run fails with error `e`: either credential acquisition fails
with `e`, or it succeeds and the secret retrieval fails with `e`. -/
def failsWith (w : World) (e : PyError) : Prop :=
  w.acquireCredential = Except.error e ∨
    ∃ c, w.acquireCredential = Except.ok c ∧
      w.getSecret vaultURL secretName c = Except.error e

/-- Recogniser for credential-acquisition events. -/
def Event.isCredentialRequest : Event → Bool
  | Event.credentialRequest => true
  | _ => false

/-- Recogniser for secret-retrieval events. -/
def Event.isSecretRequest : Event → Bool
  | Event.secretRequest _ _ => true
  | _ => false

/-- Recogniser for standard-output events. -/
def Event.isStdoutWrite : Event → Bool
  | Event.stdoutWrite _ => true
  | _ => false

/-- Example secret value used in concrete runs. -/
def hunter2 : String := "hunter2"

/-- A concrete credential for concrete runs. -/
def credEx : Credential := { token := 0 }

/-- A concrete secret carrying a string value. -/
def secretEx : Secret := { name := secretName, value := some hunter2 }

/-- A concrete secret whose value is Python None. -/
def secretNoneEx : Secret := { name := secretName, value := none }

/-- A world in which both external calls succeed. -/
def okWorld : World :=
  { acquireCredential := Except.ok credEx,
    getSecret := fun _ _ _ => Except.ok secretEx }

/-- A world with the same responses as `okWorld` on the script's actual
request, written differently. -/
def okWorld2 : World :=
  { acquireCredential := Except.ok credEx,
    getSecret := fun _ n _ =>
      if n = secretName then Except.ok secretEx
      else Except.error PyError.notFoundError }

/-- A world in which the identity agent is unreachable. -/
def failWorldAuth : World :=
  { acquireCredential := Except.error PyError.authenticationError,
    getSecret := fun _ _ _ => Except.error PyError.networkError }

/-- A world in which the credential is issued but the secret is absent. -/
def failWorldNotFound : World :=
  { acquireCredential := Except.ok credEx,
    getSecret := fun _ _ _ => Except.error PyError.notFoundError }

/-- A world in which retrieval succeeds with a None-valued secret. -/
def noneWorld : World :=
  { acquireCredential := Except.ok credEx,
    getSecret := fun _ _ _ => Except.ok secretNoneEx }

/-- The empty starting environment. -/
def emptyEnv : Env := fun _ => none

/-- An unrelated environment key, for frame checks. -/
def pathKey : String := "PATH"

/-- A stale value preinstalled in an environment. -/
def staleValue : String := "stale"

/-- A starting environment that already binds `pathKey` and
`identityEndpointKey`. -/
def presetEnv : Env :=
  fun k => if k = pathKey then some staleValue
    else if k = identityEndpointKey then some staleValue
    else none

theorem run_acquire_error (w : World) (env0 : Env) (e : PyError)
    (h : w.acquireCredential = Except.error e) :
    run w env0 =
      { trace := setupTrace, stdout := [], env := envAfterSetup env0,
        envAtCredential := envAfterSetup env0, exitCode := 1, error := some e } := by
  simp [run, h]

theorem run_getSecret_error (w : World) (env0 : Env) (c : Credential) (e : PyError)
    (hc : w.acquireCredential = Except.ok c)
    (hs : w.getSecret vaultURL secretName c = Except.error e) :
    run w env0 =
      { trace := requestTrace, stdout := [], env := envAfterSetup env0,
        envAtCredential := envAfterSetup env0, exitCode := 1, error := some e } := by
  simp [run, hc, hs]

theorem run_value_none (w : World) (env0 : Env) (c : Credential) (s : Secret)
    (hc : w.acquireCredential = Except.ok c)
    (hs : w.getSecret vaultURL secretName c = Except.ok s)
    (hv : s.value = none) :
    run w env0 =
      { trace := requestTrace, stdout := [], env := envAfterSetup env0,
        envAtCredential := envAfterSetup env0, exitCode := 1,
        error := some PyError.typeError } := by
  simp [run, hc, hs, hv]

theorem run_value_some (w : World) (env0 : Env) (c : Credential) (s : Secret) (v : String)
    (hc : w.acquireCredential = Except.ok c)
    (hs : w.getSecret vaultURL secretName c = Except.ok s)
    (hv : s.value = some v) :
    run w env0 =
      { trace := requestTrace ++ [Event.stdoutWrite (outputLabel ++ v)],
        stdout := [outputLabel ++ v], env := envAfterSetup env0,
        envAtCredential := envAfterSetup env0, exitCode := 0, error := none } := by
  simp [run, hc, hs, hv]

theorem envAfterSetup_identity (env0 : Env) :
    envAfterSetup env0 identityEndpointKey = some identityEndpointURL := by
  show (if identityEndpointKey = imdsEndpointKey then some imdsEndpointURL
    else if identityEndpointKey = identityEndpointKey then some identityEndpointURL
    else env0 identityEndpointKey) = some identityEndpointURL
  rw [if_neg (by decide), if_pos rfl]

theorem envAfterSetup_imds (env0 : Env) :
    envAfterSetup env0 imdsEndpointKey = some imdsEndpointURL := by
  show (if imdsEndpointKey = imdsEndpointKey then some imdsEndpointURL
    else if imdsEndpointKey = identityEndpointKey then some identityEndpointURL
    else env0 imdsEndpointKey) = some imdsEndpointURL
  rw [if_pos rfl]

theorem envAfterSetup_other (env0 : Env) (k : String)
    (h1 : k ≠ identityEndpointKey) (h2 : k ≠ imdsEndpointKey) :
    envAfterSetup env0 k = env0 k := by
  show (if k = imdsEndpointKey then some imdsEndpointURL
    else if k = identityEndpointKey then some identityEndpointURL
    else env0 k) = env0 k
  rw [if_neg h2, if_neg h1]

/-- C1: on a successful run (credential acquired, secret retrieved with a
string value), the script writes exactly one line to standard output, of
the form `KeyVault secret is: <value>`, and the trace contains exactly
one stdout-write event, so the value appears in no other output. -/
theorem claim1_single_output_line (w : World) (env0 : Env)
    (c : Credential) (s : Secret) (v : String)
    (hc : w.acquireCredential = Except.ok c)
    (hs : w.getSecret vaultURL secretName c = Except.ok s)
    (hv : s.value = some v) :
    (run w env0).stdout = [outputLabel ++ v] ∧
    (run w env0).exitCode = 0 ∧
    (run w env0).trace.countP Event.isStdoutWrite = 1 := by
  rw [run_value_some w env0 c s v hc hs hv]
  refine ⟨rfl, rfl, ?_⟩
  simp [requestTrace, setupTrace, List.countP_append, List.countP_cons,
    Event.isStdoutWrite]

/-- Witness for C1: the concrete all-success world prints exactly
`KeyVault secret is: hunter2`. -/
theorem claim1_single_output_line_witness :
    (run okWorld emptyEnv).stdout = [outputLabel ++ hunter2] ∧
    (run okWorld emptyEnv).exitCode = 0 ∧
    (run okWorld emptyEnv).trace.countP Event.isStdoutWrite = 1 :=
  claim1_single_output_line okWorld emptyEnv credEx secretEx hunter2 rfl rfl rfl

/-- C2: in every run, IDENTITY_ENDPOINT and IMDS_ENDPOINT hold the local
identity-agent proxy addresses at the moment the credential is
constructed, and the two assignment events strictly precede the
credential-acquisition event in the trace. -/
theorem claim2_endpoints_before_credential (w : World) (env0 : Env) :
    (run w env0).envAtCredential identityEndpointKey = some identityEndpointURL ∧
    (run w env0).envAtCredential imdsEndpointKey = some imdsEndpointURL ∧
    ∃ rest, (run w env0).trace =
      Event.envAssign identityEndpointKey identityEndpointURL ::
      Event.envAssign imdsEndpointKey imdsEndpointURL ::
      Event.credentialRequest :: rest := by
  rcases hA : w.acquireCredential with e | c
  · rw [run_acquire_error w env0 e hA]
    exact ⟨envAfterSetup_identity env0, envAfterSetup_imds env0, [], rfl⟩
  · rcases hS : w.getSecret vaultURL secretName c with e | s
    · rw [run_getSecret_error w env0 c e hA hS]
      exact ⟨envAfterSetup_identity env0, envAfterSetup_imds env0,
        [Event.clientConstruct vaultURL, Event.secretRequest vaultURL secretName], rfl⟩
    · rcases hV : s.value with _ | v
      · rw [run_value_none w env0 c s hA hS hV]
        exact ⟨envAfterSetup_identity env0, envAfterSetup_imds env0,
          [Event.clientConstruct vaultURL, Event.secretRequest vaultURL secretName], rfl⟩
      · rw [run_value_some w env0 c s v hA hS hV]
        exact ⟨envAfterSetup_identity env0, envAfterSetup_imds env0,
          [Event.clientConstruct vaultURL, Event.secretRequest vaultURL secretName,
           Event.stdoutWrite (outputLabel ++ v)], rfl⟩

/-- C3: every failure of credential acquisition or secret retrieval
escapes untranslated and terminates the run with a non-zero exit status:
the run's recorded error is exactly the error the collaborator raised. -/
theorem claim3_errors_propagate (w : World) (env0 : Env) (e : PyError)
    (h : failsWith w e) :
    (run w env0).error = some e ∧ (run w env0).exitCode ≠ 0 := by
  rcases h with h | ⟨c, hc, hs⟩
  · rw [run_acquire_error w env0 e h]
    exact ⟨rfl, Nat.one_ne_zero⟩
  · rw [run_getSecret_error w env0 c e hc hs]
    exact ⟨rfl, Nat.one_ne_zero⟩

/-- Witness for C3: with an unreachable identity agent the run ends with
`authenticationError` and a non-zero status. -/
theorem claim3_errors_propagate_witness :
    (run failWorldAuth emptyEnv).error = some PyError.authenticationError ∧
    (run failWorldAuth emptyEnv).exitCode ≠ 0 :=
  claim3_errors_propagate failWorldAuth emptyEnv PyError.authenticationError (Or.inl rfl)

/-- C4: every failing run (agent unreachable, secret absent, transport
failure) exits non-zero and writes nothing to standard output. -/
theorem claim4_failure_no_output (w : World) (env0 : Env) (e : PyError)
    (h : failsWith w e) :
    (run w env0).stdout = [] ∧ (run w env0).exitCode ≠ 0 := by
  rcases h with h | ⟨c, hc, hs⟩
  · rw [run_acquire_error w env0 e h]
    exact ⟨rfl, Nat.one_ne_zero⟩
  · rw [run_getSecret_error w env0 c e hc hs]
    exact ⟨rfl, Nat.one_ne_zero⟩

/-- Witness for C4: when the vault lacks the secret, nothing is printed
and the status is non-zero. -/
theorem claim4_failure_no_output_witness :
    (run failWorldNotFound emptyEnv).stdout = [] ∧
    (run failWorldNotFound emptyEnv).exitCode ≠ 0 :=
  claim4_failure_no_output failWorldNotFound emptyEnv PyError.notFoundError
    (Or.inr ⟨credEx, rfl, rfl⟩)

/-- C5: determinism modulo the collaborators: two runs whose worlds give
the same credential outcome and the same retrieval outcome produce
identical standard output, whatever the starting environments were. -/
theorem claim5_deterministic (w w' : World) (env0 env0' : Env)
    (hcred : w.acquireCredential = w'.acquireCredential)
    (hsec : ∀ c, w.getSecret vaultURL secretName c =
      w'.getSecret vaultURL secretName c) :
    (run w env0).stdout = (run w' env0').stdout := by
  rcases hA : w.acquireCredential with e | c
  · rw [run_acquire_error w env0 e hA,
      run_acquire_error w' env0' e (hcred.symm.trans hA)]
  · rcases hS : w.getSecret vaultURL secretName c with e | s
    · rw [run_getSecret_error w env0 c e hA hS,
        run_getSecret_error w' env0' c e (hcred.symm.trans hA)
          ((hsec c).symm.trans hS)]
    · rcases hV : s.value with _ | v
      · rw [run_value_none w env0 c s hA hS hV,
          run_value_none w' env0' c s (hcred.symm.trans hA)
            ((hsec c).symm.trans hS) hV]
      · rw [run_value_some w env0 c s v hA hS hV,
          run_value_some w' env0' c s v (hcred.symm.trans hA)
            ((hsec c).symm.trans hS) hV]

/-- Witness for C5: two syntactically different worlds with the same
responses, started in different environments, print the same output. -/
theorem claim5_deterministic_witness :
    (run okWorld emptyEnv).stdout = (run okWorld2 presetEnv).stdout :=
  claim5_deterministic okWorld okWorld2 emptyEnv presetEnv rfl
    (fun _ => by simp [okWorld, okWorld2])

/-- C6: under the invariant that a successfully retrieved secret has a
non-null value, a run in which both external calls succeed prints the
well-formed line and exits 0: the concatenation cannot fail. -/
theorem claim6_value_nonnull_wellformed (w : World) (env0 : Env)
    (c : Credential) (s : Secret)
    (hinv : ∀ c' s', w.getSecret vaultURL secretName c' = Except.ok s' →
      s'.value ≠ none)
    (hc : w.acquireCredential = Except.ok c)
    (hs : w.getSecret vaultURL secretName c = Except.ok s) :
    ∃ v, s.value = some v ∧
      (run w env0).stdout = [outputLabel ++ v] ∧ (run w env0).exitCode = 0 := by
  rcases hV : s.value with _ | v
  · exact absurd hV (hinv c s hs)
  · refine ⟨v, rfl, ?_⟩
    rw [run_value_some w env0 c s v hc hs hV]
    exact ⟨rfl, rfl⟩

/-- Witness for C6: the all-success world satisfies the invariant and
prints the line. -/
theorem claim6_value_nonnull_wellformed_witness :
    ∃ v, secretEx.value = some v ∧
      (run okWorld emptyEnv).stdout = [outputLabel ++ v] ∧
      (run okWorld emptyEnv).exitCode = 0 :=
  claim6_value_nonnull_wellformed okWorld emptyEnv credEx secretEx
    (fun c' s' h => by
      injection h with h2
      rw [← h2]
      simp [secretEx])
    rfl rfl

/-- C7: the vault address and the secret name are fixed constants: in
every run, any client construction targets the hardcoded vault URL and
any secret request targets that URL and the hardcoded name, whatever the
world and starting environment. -/
theorem claim7_fixed_vault_and_name (w : World) (env0 : Env) (u u' n : String)
    (hcl : Event.clientConstruct u ∈ (run w env0).trace)
    (hreq : Event.secretRequest u' n ∈ (run w env0).trace) :
    u = vaultURL ∧ u' = vaultURL ∧ n = secretName := by
  rcases hA : w.acquireCredential with e | c
  · rw [run_acquire_error w env0 e hA] at hcl
    simp [setupTrace] at hcl
  · rcases hS : w.getSecret vaultURL secretName c with e | s
    · rw [run_getSecret_error w env0 c e hA hS] at hcl hreq
      simp [requestTrace, setupTrace] at hcl hreq
      exact ⟨hcl, hreq.1, hreq.2⟩
    · rcases hV : s.value with _ | v
      · rw [run_value_none w env0 c s hA hS hV] at hcl hreq
        simp [requestTrace, setupTrace] at hcl hreq
        exact ⟨hcl, hreq.1, hreq.2⟩
      · rw [run_value_some w env0 c s v hA hS hV] at hcl hreq
        simp [requestTrace, setupTrace] at hcl hreq
        exact ⟨hcl, hreq.1, hreq.2⟩

/-- Witness for C7: in the concrete all-success run the client and the
request indeed target the hardcoded vault URL and secret name. -/
theorem claim7_fixed_vault_and_name_witness :
    vaultURL = vaultURL ∧ vaultURL = vaultURL ∧ secretName = secretName :=
  claim7_fixed_vault_and_name okWorld emptyEnv vaultURL vaultURL secretName
    (by
      rw [run_value_some okWorld emptyEnv credEx secretEx hunter2 rfl rfl rfl]
      simp [requestTrace, setupTrace])
    (by
      rw [run_value_some okWorld emptyEnv credEx secretEx hunter2 rfl rfl rfl]
      simp [requestTrace, setupTrace])

/-- C8: the control flow is strictly sequential with no retries: every
run performs at most one credential acquisition and at most one secret
retrieval. -/
theorem claim8_no_retries (w : World) (env0 : Env) :
    (run w env0).trace.countP Event.isCredentialRequest ≤ 1 ∧
    (run w env0).trace.countP Event.isSecretRequest ≤ 1 := by
  rcases hA : w.acquireCredential with e | c
  · rw [run_acquire_error w env0 e hA]
    exact ⟨Nat.le_refl 1, Nat.zero_le 1⟩
  · rcases hS : w.getSecret vaultURL secretName c with e | s
    · rw [run_getSecret_error w env0 c e hA hS]
      exact ⟨Nat.le_refl 1, Nat.le_refl 1⟩
    · rcases hV : s.value with _ | v
      · rw [run_value_none w env0 c s hA hS hV]
        exact ⟨Nat.le_refl 1, Nat.le_refl 1⟩
      · rw [run_value_some w env0 c s v hA hS hV]
        constructor <;>
          simp [requestTrace, setupTrace, List.countP_append, List.countP_cons,
            Event.isCredentialRequest, Event.isSecretRequest]

/-- C9: the two assignments overwrite any pre-existing values of the two
keys, touch no other key, and survive failing runs: in every run the
final environment binds the two keys to the proxy addresses and agrees
with the starting environment everywhere else. -/
theorem claim9_env_frame (w : World) (env0 : Env) :
    (run w env0).env identityEndpointKey = some identityEndpointURL ∧
    (run w env0).env imdsEndpointKey = some imdsEndpointURL ∧
    ∀ k, k ≠ identityEndpointKey → k ≠ imdsEndpointKey →
      (run w env0).env k = env0 k := by
  have henv : (run w env0).env = envAfterSetup env0 := by
    rcases hA : w.acquireCredential with e | c
    · rw [run_acquire_error w env0 e hA]
    · rcases hS : w.getSecret vaultURL secretName c with e | s
      · rw [run_getSecret_error w env0 c e hA hS]
      · rcases hV : s.value with _ | v
        · rw [run_value_none w env0 c s hA hS hV]
        · rw [run_value_some w env0 c s v hA hS hV]
  rw [henv]
  exact ⟨envAfterSetup_identity env0, envAfterSetup_imds env0,
    fun k h1 h2 => envAfterSetup_other env0 k h1 h2⟩

/-- Witness for C9: a failing run started with stale values overwrites
IDENTITY_ENDPOINT and leaves PATH untouched. -/
theorem claim9_env_frame_witness :
    (run failWorldAuth presetEnv).env identityEndpointKey = some identityEndpointURL ∧
    (run failWorldAuth presetEnv).env pathKey = some staleValue := by
  obtain ⟨h1, _, h3⟩ := claim9_env_frame failWorldAuth presetEnv
  refine ⟨h1, (h3 pathKey (by decide) (by decide)).trans ?_⟩
  show (if pathKey = pathKey then some staleValue
    else if pathKey = identityEndpointKey then some staleValue else none) = some staleValue
  rw [if_pos rfl]

/-- C10: when retrieval succeeds, the success line is emitted exactly
when the value is a non-null string: a None value makes the final
concatenation raise a type error, so nothing is printed and the run exits
non-zero, while a string value is printed with exit status 0. -/
theorem claim10_none_value_typeerror (w : World) (env0 : Env)
    (c : Credential) (s : Secret)
    (hc : w.acquireCredential = Except.ok c)
    (hs : w.getSecret vaultURL secretName c = Except.ok s) :
    (s.value = none →
      (run w env0).stdout = [] ∧ (run w env0).exitCode ≠ 0 ∧
      (run w env0).error = some PyError.typeError) ∧
    (∀ v, s.value = some v →
      (run w env0).stdout = [outputLabel ++ v] ∧ (run w env0).exitCode = 0) := by
  constructor
  · intro hV
    rw [run_value_none w env0 c s hc hs hV]
    exact ⟨rfl, Nat.one_ne_zero, rfl⟩
  · intro v hV
    rw [run_value_some w env0 c s v hc hs hV]
    exact ⟨rfl, rfl⟩

/-- Witness for C10: the world returning a None-valued secret prints
nothing and exits with the local type error. -/
theorem claim10_none_value_typeerror_witness :
    (run noneWorld emptyEnv).stdout = [] ∧
    (run noneWorld emptyEnv).exitCode ≠ 0 ∧
    (run noneWorld emptyEnv).error = some PyError.typeError :=
  (claim10_none_value_typeerror noneWorld emptyEnv credEx secretNoneEx rfl rfl).1 rfl

end AzureArcMI
